import Mathlib

/-!
Verification of the PPDB SQL schema generator (`ppdbSqlSchema.py`).

The development shallowly embeds the schema-generation logic of
`PpdbSqlSchema`: the logical-to-physical type mapping (`_getDoubleType`
and the `_type_map` dict), the column builder (`_tableColumns`), the
index/constraint builder (`_tableIndices`), the table assembler
(`_makeTables`), the schema (re)creation entry point (`makeSchema`) and
the Oracle DDL compilation hooks (`_add_suffixes_tbl`,
`_add_suffixes_idx`).  SQLAlchemy objects (`Column`, `Index`,
`PrimaryKeyConstraint`, `UniqueConstraint`, `Table`, `MetaData`) are
embedded as plain records; the abstract schema catalog supplied by the
base class is a parameter (a lookup from table name to its logical
definition).
-/

namespace Ppdb

/-- Physical (SQLAlchemy) column types used by the type map.  The four
`DOUBLE` resolutions are the distinct dialect-specific classes imported
by `_getDoubleType`: `sqlalchemy.dialects.mysql.DOUBLE` (with its
`asdecimal` constructor flag), `sqlalchemy.dialects.postgresql.DOUBLE_PRECISION`,
`sqlalchemy.dialects.oracle.DOUBLE_PRECISION` and
`sqlalchemy.dialects.sqlite.REAL`. -/
inductive PhysType where
  | mysqlDouble (asdecimal : Bool)
  | pgDoublePrecision
  | oracleDoublePrecision
  | sqliteReal
  | Float
  | TIMESTAMP
  | BigInteger
  | Integer
  | LargeBinary
  | CHAR
  | Boolean
deriving DecidableEq, Repr

/-- Embedding of `PpdbSqlSchema._getDoubleType`: the `DOUBLE` logical
type is database specific and is selected from the engine's dialect
name; an unexpected dialect raises `TypeError`. -/
def getDoubleType (dialect : String) : Except String PhysType :=
  if dialect = "mysql" then .ok (.mysqlDouble false)
  else if dialect = "postgresql" then .ok .pgDoublePrecision
  else if dialect = "oracle" then .ok .oracleDoublePrecision
  else if dialect = "sqlite" then .ok .sqliteReal
  else .error ("cannot determine DOUBLE type, unexpected dialect: " ++ dialect)

/-- Embedding of the `self._type_map = dict(...)` initializer: an
association list from logical ("cat") type token to SQLAlchemy type,
where the entry for `DOUBLE` is the already-resolved dialect-specific
type `dbl`. -/
def mk_type_map (dbl : PhysType) : List (String × PhysType) :=
  [("DOUBLE", dbl),
   ("FLOAT", .Float),
   ("DATETIME", .TIMESTAMP),
   ("BIGINT", .BigInteger),
   ("INTEGER", .Integer),
   ("INT", .Integer),
   ("TINYINT", .Integer),
   ("BLOB", .LargeBinary),
   ("CHAR", .CHAR),
   ("BOOL", .Boolean)]

/-- Resolution of a logical type token for a dialect: first the
dialect-specific `DOUBLE` type is determined (as in `__init__`, which
may fail for an unknown dialect), then the token is looked up in the
type map (`self._type_map[column.type]`, `none` modelling `KeyError`). -/
def resolveType (dialect tok : String) : Except String (Option PhysType) :=
  (getDoubleType dialect).map (fun dbl => (mk_type_map dbl).lookup tok)

/-- Logical column descriptor from the abstract schema catalog:
`{name, type token, nullable, default}`.  `default` carries the string
form of the default value (the code applies `str` to it). -/
structure LogicalColumn where
  name : String
  type : String
  nullable : Bool
  default : Option String
deriving DecidableEq, Repr

/-- Logical index descriptor from the abstract schema catalog:
`{name, type (kind token), columns}`.  An absent/`None` name is
modelled as the empty string (both are falsy in `if index.name:`). -/
structure LogicalIndex where
  name : String
  type : String
  columns : List String
deriving DecidableEq, Repr

/-- A logical table definition: ordered columns and ordered indices. -/
structure TableSchema where
  columns : List LogicalColumn
  indices : List LogicalIndex
deriving DecidableEq, Repr

/-- The `info` dict attached to tables and indices.  `_makeTables`
populates `oracle_tablespace`; `oracle_iot` is only present (as `info2`)
on the `DiaObjectLast` table, so the plain `info` dict has it `false`
(`info.get("oracle_iot", False)`). -/
structure Info where
  oracle_tablespace : Option String
  oracle_iot : Bool
deriving DecidableEq, Repr

/-- Embedding of a SQLAlchemy `Column` as produced by `_tableColumns`:
`autoincrement = some false` records that `autoincrement=False` was
passed explicitly; `none` means the keyword was not touched. -/
structure PhysColumn where
  name : String
  ctype : PhysType
  nullable : Bool
  server_default : Option String
  autoincrement : Option Bool
deriving DecidableEq, Repr

/-- Embedding of the SQLAlchemy index/constraint objects produced by
`_tableIndices` (and the hard-coded `PpdbProtoVisits` objects):
`Index(name, *columns, info=info)`, `PrimaryKeyConstraint(*columns,
name=?)` and `UniqueConstraint(*columns, name=?)`. -/
inductive IndexObj where
  | index (name : String) (columns : List String) (info : Info)
  | primaryKey (name : Option String) (columns : List String)
  | uniqueConstraint (name : Option String) (columns : List String)
deriving DecidableEq, Repr

/-- Columns spanned by a physical index/constraint object, in order. -/
def IndexObj.cols : IndexObj → List String
  | .index _ cs _ => cs
  | .primaryKey _ cs => cs
  | .uniqueConstraint _ cs => cs

/-- Generated identifier carried by a physical index/constraint object,
if any (unnamed primary-key/unique constraints generate none). -/
def IndexObj.genName : IndexObj → Option String
  | .index n _ _ => some n
  | .primaryKey n _ => n
  | .uniqueConstraint n _ => n

/-- Embedding of a SQLAlchemy `Table`: name, columns, followed
constraints/indices, `mysql_engine` keyword and `info` dict. -/
structure PhysTable where
  name : String
  columns : List PhysColumn
  constraints : List IndexObj
  mysql_engine : String
  info : Info
deriving DecidableEq, Repr

/-- Indexing mode for the DiaObject table: the three values allowed by
the `dia_object_index` `ChoiceField`. -/
inductive DiaObjectIndexMode where
  | baseline
  | pix_id_iov
  | last_object_table
deriving DecidableEq, Repr

/-- State of a `PpdbSqlSchema` instance relevant to schema generation:
the configuration fields copied in `__init__`, the resolved type map and
the abstract schema catalog (`self.tableSchemas`, supplied by the base
class, modelled as a name lookup). -/
structure SchemaState where
  dia_object_index : DiaObjectIndexMode
  dia_object_nightly : Bool
  pfx : String
  type_map : List (String × PhysType)
  tableSchemas : String → Option TableSchema

/-- Embedding of the primary-key-column scan at the top of
`_tableColumns`: the column set of the first index of type `PRIMARY`
(the loop breaks at the first match), empty if there is none. -/
def pkeyColumns (ts : TableSchema) : List String :=
  match ts.indices.find? (fun idx => idx.type == "PRIMARY") with
  | some idx => idx.columns
  | none => []

/-- Embedding of the conversion loop of `_tableColumns`: each logical
column is turned into a `Column` with its resolved type, nullability,
optional server default, and `autoincrement=False` exactly when the
column name is in the primary-key set; an unknown type token is a
`KeyError`. -/
def columnsToPhys (tm : List (String × PhysType)) (pkey : List String) :
    List LogicalColumn → Except String (List PhysColumn)
  | [] => .ok []
  | c :: rest =>
    match tm.lookup c.type with
    | none => .error ("KeyError: " ++ c.type)
    | some t =>
      (columnsToPhys tm pkey rest).map
        (fun rest' =>
          { name := c.name
            ctype := t
            nullable := c.nullable
            server_default := c.default
            autoincrement := if pkey.contains c.name then some false else none } :: rest')

/-- Embedding of `PpdbSqlSchema._tableColumns`: look up the logical
table (`self.tableSchemas[table_name]`, `KeyError` if absent) and
convert its columns. -/
def tableColumns (st : SchemaState) (table_name : String) : Except String (List PhysColumn) :=
  match st.tableSchemas table_name with
  | none => .error ("KeyError: " ++ table_name)
  | some ts => columnsToPhys st.type_map (pkeyColumns ts) ts.columns

/-- Embedding of the conversion loop of `_tableIndices`: `INDEX`
descriptors become prefixed `Index` objects carrying `info`; `PRIMARY`
and `UNIQUE` become constraints whose name is the prefixed descriptor
name only when that name is truthy (non-empty); any other kind token
falls through the `if`/`elif` chain and produces nothing. -/
def indicesToPhys (pfx : String) (info : Info) : List LogicalIndex → List IndexObj
  | [] => []
  | idx :: rest =>
    let tail := indicesToPhys pfx info rest
    if idx.type = "INDEX" then
      .index (pfx ++ idx.name) idx.columns info :: tail
    else if idx.type = "PRIMARY" then
      .primaryKey (if idx.name = "" then none else some (pfx ++ idx.name)) idx.columns :: tail
    else if idx.type = "UNIQUE" then
      .uniqueConstraint (if idx.name = "" then none else some (pfx ++ idx.name)) idx.columns :: tail
    else
      tail

/-- Embedding of `PpdbSqlSchema._tableIndices`: look up the logical
table and convert its index descriptors. -/
def tableIndices (st : SchemaState) (table_name : String) (info : Info) :
    Except String (List IndexObj) :=
  match st.tableSchemas table_name with
  | none => .error ("KeyError: " ++ table_name)
  | some ts => .ok (indicesToPhys st.pfx info ts.indices)

/-- Embedding of `_add_suffixes_tbl`, the `@compiles(CreateTable,
"oracle")` hook: starting from the generic `visit_create_table` text it
appends " ORGANIZATION INDEX" when the table's `info` has a truthy
`oracle_iot`, then " TABLESPACE <name>" when `oracle_tablespace` is
truthy (present and non-empty). -/
def _add_suffixes_tbl (text : String) (info : Info) : String :=
  let text1 := if info.oracle_iot then text ++ " ORGANIZATION INDEX" else text
  match info.oracle_tablespace with
  | some ts => if ts = "" then text1 else text1 ++ " TABLESPACE " ++ ts
  | none => text1

/-- Embedding of `_add_suffixes_idx`, the `@compiles(CreateIndex,
"oracle")` hook: appends only the tablespace clause to the generic
`visit_create_index` text. -/
def _add_suffixes_idx (text : String) (info : Info) : String :=
  match info.oracle_tablespace with
  | some ts => if ts = "" then text else text ++ " TABLESPACE " ++ ts
  | none => text

/-- Dispatch of SQLAlchemy's `@compiles(CreateTable, "oracle")`
registration: the hook is consulted only when compiling for the
`oracle` dialect; every other dialect uses the generic DDL text
unmodified. -/
def compileCreateTable (dialect : String) (generic_text : String) (info : Info) : String :=
  if dialect = "oracle" then _add_suffixes_tbl generic_text info else generic_text

/-- Dispatch of SQLAlchemy's `@compiles(CreateIndex, "oracle")`
registration, as for `compileCreateTable`. -/
def compileCreateIndex (dialect : String) (generic_text : String) (info : Info) : String :=
  if dialect = "oracle" then _add_suffixes_idx generic_text info else generic_text

/-- Result of `_makeTables`: the attribute assignments made by the
method (`self.objects`, `self.objects_nightly`, `self.objects_last`,
`self.sources`, `self.forcedSources`, `self.visits`) together with the
full list of tables registered with `self._metadata`, in registration
order.  The `SSObject` and `DiaObject_To_Object_Match` tables appear
only in `metadata`. -/
structure SchemaTables where
  objects : PhysTable
  objects_nightly : Option PhysTable
  objects_last : Option PhysTable
  sources : PhysTable
  forcedSources : PhysTable
  visits : PhysTable
  metadata : List PhysTable
deriving DecidableEq, Repr

/-- Embedding of `PpdbSqlSchema._makeTables`: builds the `DiaObject`
table (constraints from `DiaObjectIndexHtmFirst` when the indexing mode
is `pix_id_iov`, else from `DiaObject`), the optional `DiaObjectNightly`
table (same columns as `DiaObject`, no indices), the optional
`DiaObjectLast` table (own columns and indices, `info2` with the
`oracle_iot` flag), the four catalog tables `DiaSource`, `SSObject`,
`DiaForcedSource`, `DiaObject_To_Object_Match`, and the hard-coded
`PpdbProtoVisits` table. -/
def makeTables (st : SchemaState) (mysql_engine : String)
    (oracle_tablespace : Option String) (oracle_iot : Bool) :
    Except String SchemaTables := do
  let info : Info := { oracle_tablespace := oracle_tablespace, oracle_iot := false }
  let constraints ←
    if st.dia_object_index = .pix_id_iov then
      tableIndices st "DiaObjectIndexHtmFirst" info
    else
      tableIndices st "DiaObject" info
  let objCols ← tableColumns st "DiaObject"
  let objects : PhysTable :=
    { name := st.pfx ++ "DiaObject", columns := objCols, constraints := constraints,
      mysql_engine := mysql_engine, info := info }
  let objects_nightly ←
    if st.dia_object_nightly then do
      let cols ← tableColumns st "DiaObject"
      pure (some ({ name := st.pfx ++ "DiaObjectNightly", columns := cols, constraints := [],
                    mysql_engine := mysql_engine, info := info } : PhysTable))
    else
      pure none
  let objects_last ←
    if st.dia_object_index = .last_object_table then do
      let info2 : Info := { info with oracle_iot := oracle_iot }
      let cols ← tableColumns st "DiaObjectLast"
      let cons ← tableIndices st "DiaObjectLast" info
      pure (some ({ name := st.pfx ++ "DiaObjectLast", columns := cols, constraints := cons,
                    mysql_engine := mysql_engine, info := info2 } : PhysTable))
    else
      pure none
  let srcCols ← tableColumns st "DiaSource"
  let srcCons ← tableIndices st "DiaSource" info
  let sources : PhysTable :=
    { name := st.pfx ++ "DiaSource", columns := srcCols, constraints := srcCons,
      mysql_engine := mysql_engine, info := info }
  let ssCols ← tableColumns st "SSObject"
  let ssCons ← tableIndices st "SSObject" info
  let ssTable : PhysTable :=
    { name := st.pfx ++ "SSObject", columns := ssCols, constraints := ssCons,
      mysql_engine := mysql_engine, info := info }
  let fsCols ← tableColumns st "DiaForcedSource"
  let fsCons ← tableIndices st "DiaForcedSource" info
  let forcedSources : PhysTable :=
    { name := st.pfx ++ "DiaForcedSource", columns := fsCols, constraints := fsCons,
      mysql_engine := mysql_engine, info := info }
  let matchCols ← tableColumns st "DiaObject_To_Object_Match"
  let matchCons ← tableIndices st "DiaObject_To_Object_Match" info
  let matchTable : PhysTable :=
    { name := st.pfx ++ "DiaObject_To_Object_Match", columns := matchCols,
      constraints := matchCons, mysql_engine := mysql_engine, info := info }
  let visits : PhysTable :=
    { name := st.pfx ++ "PpdbProtoVisits",
      columns :=
        [{ name := "visitId", ctype := .BigInteger, nullable := false,
           server_default := none, autoincrement := none },
         { name := "visitTime", ctype := .TIMESTAMP, nullable := false,
           server_default := none, autoincrement := none }],
      constraints :=
        [.primaryKey (some (st.pfx ++ "PK_PpdbProtoVisits")) ["visitId"],
         .index (st.pfx ++ "IDX_PpdbProtoVisits_vTime") ["visitTime"] info],
      mysql_engine := mysql_engine, info := info }
  .ok { objects := objects
        objects_nightly := objects_nightly
        objects_last := objects_last
        sources := sources
        forcedSources := forcedSources
        visits := visits
        metadata :=
          [objects] ++ objects_nightly.toList ++ objects_last.toList ++
            [sources, ssTable, forcedSources, matchTable, visits] }

/-- State of the database the engine is bound to: the set of existing
table names. -/
structure DbState where
  existing : List String
deriving DecidableEq, Repr

/-- Modelled from the spec: SQLAlchemy `MetaData.drop_all`, an external
collaborator.  Its default `checkfirst=True` (the call in `makeSchema`
passes no arguments) drops only those tables that currently exist, so
the absence of a table is not an error; with `checkfirst=False` a DROP
is issued unconditionally and a missing table is an execution error. -/
def drop_all (db : DbState) (tables : List PhysTable) (checkfirst : Bool) :
    Except String DbState :=
  if checkfirst then
    .ok { existing := db.existing.filter (fun n => !(tables.any (fun t => t.name == n))) }
  else if tables.all (fun t => db.existing.contains t.name) then
    .ok { existing := db.existing.filter (fun n => !(tables.any (fun t => t.name == n))) }
  else
    .error "ExecutionError: no such table"

/-- Modelled from the spec: SQLAlchemy `MetaData.create_all`, an
external collaborator.  Its default `checkfirst=True` creates only the
tables that do not exist yet. -/
def create_all (db : DbState) (tables : List PhysTable) (checkfirst : Bool) :
    Except String DbState :=
  if checkfirst then
    .ok { existing :=
            db.existing ++
              ((tables.filter (fun t => !(db.existing.contains t.name))).map
                (fun t => t.name)) }
  else if tables.any (fun t => db.existing.contains t.name) then
    .error "ExecutionError: table already exists"
  else
    .ok { existing := db.existing ++ tables.map (fun t => t.name) }

/-- Embedding of `PpdbSqlSchema.makeSchema`: `self._metadata.clear()`
discards the previously held tables (`held`, which is therefore never
consulted), `_makeTables` rebuilds the table mapping with the options
passed to this call, then `drop_all()` is issued when `drop` is
requested and `create_all()` afterwards, both with SQLAlchemy's default
`checkfirst=True`. -/
def makeSchema (st : SchemaState) (held : SchemaTables) (db : DbState) (drop : Bool)
    (mysql_engine : String) (oracle_tablespace : Option String) (oracle_iot : Bool) :
    Except String (SchemaTables × DbState) := do
  let tables ← makeTables st mysql_engine oracle_tablespace oracle_iot
  let db1 ← if drop then drop_all db tables.metadata true else pure db
  let db2 ← create_all db1 tables.metadata true
  .ok (tables, db2)

/-- Names of the tables exposed as role attributes by the manager
(`objects`, optional `objects_nightly` and `objects_last`, `sources`,
`forcedSources`, `visits`). -/
def roleNames (r : SchemaTables) : List String :=
  [r.objects.name] ++ (r.objects_nightly.map (fun t => t.name)).toList ++
    (r.objects_last.map (fun t => t.name)).toList ++
    [r.sources.name, r.forcedSources.name, r.visits.name]

/-- Names of the constraint/index objects of a table that carry a
generated identifier. -/
def constraintNames : List IndexObj → List String
  | [] => []
  | i :: rest =>
    match i.genName with
    | some n => n :: constraintNames rest
    | none => constraintNames rest

/-- Every generated physical identifier of a table set: for each table
registered with the metadata, its table name followed by the names of
its named constraints and indices. -/
def allNames (r : SchemaTables) : List String :=
  r.metadata.flatMap (fun t => t.name :: constraintNames t.constraints)

/-- Unprefixed identifiers generated from a list of logical index
descriptors: the descriptor names that `_tableIndices` turns into named
physical objects (every INDEX descriptor; PRIMARY/UNIQUE descriptors
with a truthy name). -/
def indexNamesOf : List LogicalIndex → List String
  | [] => []
  | idx :: rest =>
    if idx.type = "INDEX" then idx.name :: indexNamesOf rest
    else if idx.type = "PRIMARY" then
      (if idx.name = "" then indexNamesOf rest else idx.name :: indexNamesOf rest)
    else if idx.type = "UNIQUE" then
      (if idx.name = "" then indexNamesOf rest else idx.name :: indexNamesOf rest)
    else indexNamesOf rest

/-- Small concrete logical definition of `DiaObject` used as test data:
a primary key on (diaObjectId, iovStart) and a secondary index on the
pixel column, as in the baseline schema. -/
def tsDiaObject : TableSchema :=
  { columns :=
      [{ name := "diaObjectId", type := "BIGINT", nullable := false, default := none },
       { name := "ra", type := "DOUBLE", nullable := false, default := none },
       { name := "pixelId", type := "BIGINT", nullable := false, default := none },
       { name := "iovStart", type := "DATETIME", nullable := false, default := none },
       { name := "flags", type := "INT", nullable := true, default := some "0" }],
    indices :=
      [{ name := "PK_DiaObject", type := "PRIMARY", columns := ["diaObjectId", "iovStart"] },
       { name := "IDX_DiaObject_pixelId", type := "INDEX", columns := ["pixelId"] }] }

/-- Concrete pixel-keyed logical definition `DiaObjectIndexHtmFirst`:
its primary key leads with the spatial-pixel column. -/
def tsDiaObjectIndexHtmFirst : TableSchema :=
  { columns := [],
    indices :=
      [{ name := "PK_DiaObject", type := "PRIMARY",
         columns := ["pixelId", "diaObjectId", "iovStart"] }] }

/-- Concrete logical definition of `DiaObjectLast` ("latest per
object"). -/
def tsDiaObjectLast : TableSchema :=
  { columns :=
      [{ name := "diaObjectId", type := "BIGINT", nullable := false, default := none },
       { name := "ra", type := "DOUBLE", nullable := false, default := none },
       { name := "pixelId", type := "BIGINT", nullable := false, default := none }],
    indices :=
      [{ name := "PK_DiaObjectLast", type := "PRIMARY", columns := ["diaObjectId"] },
       { name := "IDX_DiaObjectLast_pixelId", type := "INDEX", columns := ["pixelId"] }] }

/-- Concrete logical definition of `DiaSource`. -/
def tsDiaSource : TableSchema :=
  { columns :=
      [{ name := "diaSourceId", type := "BIGINT", nullable := false, default := none },
       { name := "midPointTai", type := "DOUBLE", nullable := false, default := none }],
    indices :=
      [{ name := "PK_DiaSource", type := "PRIMARY", columns := ["diaSourceId"] }] }

/-- Concrete logical definition of `SSObject`. -/
def tsSSObject : TableSchema :=
  { columns :=
      [{ name := "ssObjectId", type := "BIGINT", nullable := false, default := none }],
    indices :=
      [{ name := "PK_SSObject", type := "PRIMARY", columns := ["ssObjectId"] }] }

/-- Concrete logical definition of `DiaForcedSource`. -/
def tsDiaForcedSource : TableSchema :=
  { columns :=
      [{ name := "diaObjectId", type := "BIGINT", nullable := false, default := none },
       { name := "flux", type := "FLOAT", nullable := true, default := none }],
    indices :=
      [{ name := "PK_DiaForcedSource", type := "PRIMARY", columns := ["diaObjectId"] }] }

/-- Concrete logical definition of `DiaObject_To_Object_Match`. -/
def tsMatch : TableSchema :=
  { columns :=
      [{ name := "diaObjectId", type := "BIGINT", nullable := false, default := none },
       { name := "objectId", type := "BIGINT", nullable := false, default := none }],
    indices :=
      [{ name := "IDX_Match_diaObjectId", type := "INDEX", columns := ["diaObjectId"] }] }

/-- Concrete abstract-schema catalog mapping each table name required
by `_makeTables` to its logical definition. -/
def exampleSchemas : String → Option TableSchema := fun n =>
  if n = "DiaObject" then some tsDiaObject
  else if n = "DiaObjectIndexHtmFirst" then some tsDiaObjectIndexHtmFirst
  else if n = "DiaObjectLast" then some tsDiaObjectLast
  else if n = "DiaSource" then some tsDiaSource
  else if n = "SSObject" then some tsSSObject
  else if n = "DiaForcedSource" then some tsDiaForcedSource
  else if n = "DiaObject_To_Object_Match" then some tsMatch
  else none

/-- Concrete `PpdbSqlSchema` state over the example catalog, with the
`sqlite` resolution of `DOUBLE` in the type map. -/
def exampleState (mode : DiaObjectIndexMode) (nightly : Bool) (pfx : String) : SchemaState :=
  { dia_object_index := mode
    dia_object_nightly := nightly
    pfx := pfx
    type_map := mk_type_map .sqliteReal
    tableSchemas := exampleSchemas }

/-- Physical columns of the example `DiaObject` definition under the
example state: both primary-key columns get `autoincrement=False`. -/
def objColsEx : List PhysColumn :=
  [{ name := "diaObjectId", ctype := .BigInteger, nullable := false,
     server_default := none, autoincrement := some false },
   { name := "ra", ctype := .sqliteReal, nullable := false,
     server_default := none, autoincrement := none },
   { name := "pixelId", ctype := .BigInteger, nullable := false,
     server_default := none, autoincrement := none },
   { name := "iovStart", ctype := .TIMESTAMP, nullable := false,
     server_default := none, autoincrement := some false },
   { name := "flags", ctype := .Integer, nullable := true,
     server_default := some "0", autoincrement := none }]

/-- Physical columns of the example `DiaObjectLast` definition. -/
def lastColsEx : List PhysColumn :=
  [{ name := "diaObjectId", ctype := .BigInteger, nullable := false,
     server_default := none, autoincrement := some false },
   { name := "ra", ctype := .sqliteReal, nullable := false,
     server_default := none, autoincrement := none },
   { name := "pixelId", ctype := .BigInteger, nullable := false,
     server_default := none, autoincrement := none }]

/-- Physical columns of the example `DiaSource` definition. -/
def srcColsEx : List PhysColumn :=
  [{ name := "diaSourceId", ctype := .BigInteger, nullable := false,
     server_default := none, autoincrement := some false },
   { name := "midPointTai", ctype := .sqliteReal, nullable := false,
     server_default := none, autoincrement := none }]

/-- Physical columns of the example `SSObject` definition. -/
def ssColsEx : List PhysColumn :=
  [{ name := "ssObjectId", ctype := .BigInteger, nullable := false,
     server_default := none, autoincrement := some false }]

/-- Physical columns of the example `DiaForcedSource` definition. -/
def fsColsEx : List PhysColumn :=
  [{ name := "diaObjectId", ctype := .BigInteger, nullable := false,
     server_default := none, autoincrement := some false },
   { name := "flux", ctype := .Float, nullable := true,
     server_default := none, autoincrement := none }]

/-- Physical columns of the example `DiaObject_To_Object_Match`
definition (no primary key, so no column has autoincrement touched). -/
def matchColsEx : List PhysColumn :=
  [{ name := "diaObjectId", ctype := .BigInteger, nullable := false,
     server_default := none, autoincrement := none },
   { name := "objectId", ctype := .BigInteger, nullable := false,
     server_default := none, autoincrement := none }]

/-- Placeholder physical table used to populate a previously held
table mapping in tests. -/
def dummyTable : PhysTable :=
  { name := "", columns := [], constraints := [], mysql_engine := "",
    info := { oracle_tablespace := none, oracle_iot := false } }

/-- A previously held table mapping (contents irrelevant: `makeSchema`
discards it). -/
def heldEx : SchemaTables :=
  { objects := dummyTable, objects_nightly := none, objects_last := none,
    sources := dummyTable, forcedSources := dummyTable, visits := dummyTable,
    metadata := [] }

/-- Explicit form of the `_makeTables` result, given the logical
definitions looked up from the catalog and the already-converted column
lists; `makeTables_eq` below proves `makeTables` produces exactly
this. -/
def makeTablesSpec (st : SchemaState) (me : String) (ot : Option String) (iot : Bool)
    (tsObj tsHtm tsLast tsSrc tsSS tsFS tsMatch : TableSchema)
    (objCols lastCols srcCols ssCols fsCols matchCols : List PhysColumn) : SchemaTables :=
  let info : Info := { oracle_tablespace := ot, oracle_iot := false }
  let objects : PhysTable :=
    { name := st.pfx ++ "DiaObject", columns := objCols,
      constraints :=
        if st.dia_object_index = .pix_id_iov then indicesToPhys st.pfx info tsHtm.indices
        else indicesToPhys st.pfx info tsObj.indices,
      mysql_engine := me, info := info }
  let objects_nightly : Option PhysTable :=
    if st.dia_object_nightly then
      some { name := st.pfx ++ "DiaObjectNightly", columns := objCols, constraints := [],
             mysql_engine := me, info := info }
    else none
  let objects_last : Option PhysTable :=
    if st.dia_object_index = .last_object_table then
      some { name := st.pfx ++ "DiaObjectLast", columns := lastCols,
             constraints := indicesToPhys st.pfx info tsLast.indices,
             mysql_engine := me, info := { info with oracle_iot := iot } }
    else none
  let sources : PhysTable :=
    { name := st.pfx ++ "DiaSource", columns := srcCols,
      constraints := indicesToPhys st.pfx info tsSrc.indices, mysql_engine := me, info := info }
  let ssTable : PhysTable :=
    { name := st.pfx ++ "SSObject", columns := ssCols,
      constraints := indicesToPhys st.pfx info tsSS.indices, mysql_engine := me, info := info }
  let forcedSources : PhysTable :=
    { name := st.pfx ++ "DiaForcedSource", columns := fsCols,
      constraints := indicesToPhys st.pfx info tsFS.indices, mysql_engine := me, info := info }
  let matchTable : PhysTable :=
    { name := st.pfx ++ "DiaObject_To_Object_Match", columns := matchCols,
      constraints := indicesToPhys st.pfx info tsMatch.indices, mysql_engine := me, info := info }
  let visits : PhysTable :=
    { name := st.pfx ++ "PpdbProtoVisits",
      columns :=
        [{ name := "visitId", ctype := .BigInteger, nullable := false,
           server_default := none, autoincrement := none },
         { name := "visitTime", ctype := .TIMESTAMP, nullable := false,
           server_default := none, autoincrement := none }],
      constraints :=
        [.primaryKey (some (st.pfx ++ "PK_PpdbProtoVisits")) ["visitId"],
         .index (st.pfx ++ "IDX_PpdbProtoVisits_vTime") ["visitTime"] info],
      mysql_engine := me, info := info }
  { objects := objects
    objects_nightly := objects_nightly
    objects_last := objects_last
    sources := sources
    forcedSources := forcedSources
    visits := visits
    metadata :=
      [objects] ++ objects_nightly.toList ++ objects_last.toList ++
        [sources, ssTable, forcedSources, matchTable, visits] }

theorem makeTables_eq (st : SchemaState) (me : String) (ot : Option String) (iot : Bool)
    (tsObj tsHtm tsLast tsSrc tsSS tsFS tsMatch : TableSchema)
    (objCols lastCols srcCols ssCols fsCols matchCols : List PhysColumn)
    (hObj : st.tableSchemas "DiaObject" = some tsObj)
    (hHtm : st.tableSchemas "DiaObjectIndexHtmFirst" = some tsHtm)
    (hLast : st.tableSchemas "DiaObjectLast" = some tsLast)
    (hSrc : st.tableSchemas "DiaSource" = some tsSrc)
    (hSS : st.tableSchemas "SSObject" = some tsSS)
    (hFS : st.tableSchemas "DiaForcedSource" = some tsFS)
    (hMatch : st.tableSchemas "DiaObject_To_Object_Match" = some tsMatch)
    (hcObj : tableColumns st "DiaObject" = .ok objCols)
    (hcLast : tableColumns st "DiaObjectLast" = .ok lastCols)
    (hcSrc : tableColumns st "DiaSource" = .ok srcCols)
    (hcSS : tableColumns st "SSObject" = .ok ssCols)
    (hcFS : tableColumns st "DiaForcedSource" = .ok fsCols)
    (hcMatch : tableColumns st "DiaObject_To_Object_Match" = .ok matchCols) :
    makeTables st me ot iot =
      .ok (makeTablesSpec st me ot iot tsObj tsHtm tsLast tsSrc tsSS tsFS tsMatch
        objCols lastCols srcCols ssCols fsCols matchCols) := by
  obtain ⟨mode, nightly, pfx, tm, cat⟩ := st
  cases mode <;> cases nightly <;>
    simp_all [makeTables, makeTablesSpec, tableIndices, Except.bind, bind, pure,
      Except.pure]

/-- Claim C2: `resolve` of the logical type `DOUBLE` returns a
distinct, dialect-appropriate physical type for each of the four
recognized dialects (mysql: the MySQL `DOUBLE` with `asdecimal=False`;
postgresql and oracle: their respective `DOUBLE_PRECISION`; sqlite: the
native 8-byte `REAL`), and raises a fatal error for every dialect
outside these four; for the four recognized dialects it never
raises. -/
theorem ppdb_C2_double_type_per_dialect :
    resolveType "mysql" "DOUBLE" = .ok (some (.mysqlDouble false)) ∧
    resolveType "postgresql" "DOUBLE" = .ok (some .pgDoublePrecision) ∧
    resolveType "oracle" "DOUBLE" = .ok (some .oracleDoublePrecision) ∧
    resolveType "sqlite" "DOUBLE" = .ok (some .sqliteReal) ∧
    ([PhysType.mysqlDouble false, .pgDoublePrecision, .oracleDoublePrecision, .sqliteReal] :
        List PhysType).Pairwise (· ≠ ·) ∧
    ∀ d : String, d ≠ "mysql" → d ≠ "postgresql" → d ≠ "oracle" → d ≠ "sqlite" →
      resolveType d "DOUBLE" =
        .error ("cannot determine DOUBLE type, unexpected dialect: " ++ d) := by
  refine ⟨rfl, rfl, rfl, rfl, by decide, ?_⟩
  intro d h1 h2 h3 h4
  simp [resolveType, getDoubleType, h1, h2, h3, h4, Except.map]

/-- Claim C2 witness: for the unrecognized dialect "db2" the resolution
of `DOUBLE` raises. -/
theorem ppdb_C2_witness :
    resolveType "db2" "DOUBLE" =
      .error ("cannot determine DOUBLE type, unexpected dialect: " ++ "db2") :=
  ppdb_C2_double_type_per_dialect.2.2.2.2.2 "db2"
    (by decide) (by decide) (by decide) (by decide)

/-- Claim C8: for every logical type token other than `DOUBLE` (FLOAT,
DATETIME, BIGINT, INTEGER, INT, TINYINT, BLOB, CHAR, BOOL), the type
mapper resolves it to the same physical type regardless of which of the
four supported dialects is active. -/
theorem ppdb_C8_static_types_constant :
    ∀ tok d₁ d₂ : String,
      tok ∈ (["FLOAT", "DATETIME", "BIGINT", "INTEGER", "INT", "TINYINT", "BLOB",
        "CHAR", "BOOL"] : List String) →
      d₁ ∈ (["mysql", "postgresql", "oracle", "sqlite"] : List String) →
      d₂ ∈ (["mysql", "postgresql", "oracle", "sqlite"] : List String) →
      ∃ t : PhysType, resolveType d₁ tok = .ok (some t) ∧ resolveType d₂ tok = .ok (some t) := by
  intro tok d₁ d₂ htok hd₁ hd₂
  fin_cases htok <;> fin_cases hd₁ <;> fin_cases hd₂ <;> exact ⟨_, rfl, rfl⟩

/-- Claim C8 witness: the FLOAT token resolves identically under mysql
and sqlite. -/
theorem ppdb_C8_witness :
    ∃ t : PhysType,
      resolveType "mysql" "FLOAT" = .ok (some t) ∧
      resolveType "sqlite" "FLOAT" = .ok (some t) :=
  ppdb_C8_static_types_constant "FLOAT" "mysql" "sqlite"
    (by decide) (by decide) (by decide)

/-- Claim C4: the dialect DDL extension fires only for the oracle
dialect and augments the generic DDL text: for create-table it appends,
in order, " ORGANIZATION INDEX" exactly when the table requested
index-organized storage, then " TABLESPACE name" exactly when a
(non-empty, i.e. truthy) tablespace is specified; for create-index only
the tablespace clause is appended; every other dialect uses the generic
DDL text unmodified. -/
theorem ppdb_C4_oracle_ddl_suffixes (g : String) (info : Info) :
    compileCreateTable "oracle" g info =
        (g ++ (if info.oracle_iot then " ORGANIZATION INDEX" else "")) ++
          (info.oracle_tablespace.elim ""
            (fun ts => if ts = "" then "" else " TABLESPACE " ++ ts)) ∧
    compileCreateIndex "oracle" g info =
        g ++ (info.oracle_tablespace.elim ""
          (fun ts => if ts = "" then "" else " TABLESPACE " ++ ts)) ∧
    ∀ d : String, d ≠ "oracle" →
      compileCreateTable d g info = g ∧ compileCreateIndex d g info = g := by
  obtain ⟨ots, iot⟩ := info
  refine ⟨?_, ?_, ?_⟩
  · rcases ots with _ | v
    · cases iot <;> simp [compileCreateTable, _add_suffixes_tbl, Option.elim]
    · cases iot <;> by_cases hv : v = "" <;>
        simp [compileCreateTable, _add_suffixes_tbl, Option.elim, hv,
          ← String.append_assoc]
  · rcases ots with _ | v
    · simp [compileCreateIndex, _add_suffixes_idx, Option.elim]
    · by_cases hv : v = "" <;>
        simp [compileCreateIndex, _add_suffixes_idx, Option.elim, hv,
          ← String.append_assoc]
  · intro d hd
    simp [compileCreateTable, compileCreateIndex, hd]

/-- Claim C4 witness: with IOT requested and tablespace "TS1" the
oracle create-table DDL gains both clauses in order, while the mysql
dialect leaves the generic text unchanged. -/
theorem ppdb_C4_witness :
    compileCreateTable "oracle" "CREATE TABLE T (X INT)"
        { oracle_tablespace := some "TS1", oracle_iot := true } =
      ("CREATE TABLE T (X INT)" ++ (if true then " ORGANIZATION INDEX" else "")) ++
        ((some "TS1").elim "" (fun ts => if ts = "" then "" else " TABLESPACE " ++ ts)) ∧
    compileCreateTable "mysql" "CREATE TABLE T (X INT)"
        { oracle_tablespace := some "TS1", oracle_iot := true } =
      "CREATE TABLE T (X INT)" := by
  refine ⟨?_, ?_⟩
  · exact (ppdb_C4_oracle_ddl_suffixes "CREATE TABLE T (X INT)"
      { oracle_tablespace := some "TS1", oracle_iot := true }).1
  · exact ((ppdb_C4_oracle_ddl_suffixes "CREATE TABLE T (X INT)"
      { oracle_tablespace := some "TS1", oracle_iot := true }).2.2 "mysql" (by decide)).1

/-- Claim C10: an index descriptor whose kind is none of INDEX,
PRIMARY, UNIQUE is silently skipped by the index builder (no error, no
physical object), while the physical objects for recognized descriptors
are emitted in declared order with each one's column order preserved
exactly. -/
theorem ppdb_C10_unknown_index_kind_skipped
    (pfx : String) (info : Info) (l₁ l₂ : List LogicalIndex) (bad : LogicalIndex)
    (h1 : bad.type ≠ "INDEX") (h2 : bad.type ≠ "PRIMARY") (h3 : bad.type ≠ "UNIQUE") :
    indicesToPhys pfx info (l₁ ++ bad :: l₂) = indicesToPhys pfx info (l₁ ++ l₂) ∧
    ∀ l : List LogicalIndex,
      (indicesToPhys pfx info l).map IndexObj.cols =
        (l.filter (fun i => i.type == "INDEX" || i.type == "PRIMARY" || i.type == "UNIQUE")).map
          (fun i => i.columns) := by
  constructor
  · induction l₁ with
    | nil =>
      show indicesToPhys pfx info (bad :: l₂) = indicesToPhys pfx info l₂
      rw [indicesToPhys, if_neg h1, if_neg h2, if_neg h3]
    | cons x xs ih =>
      simp [indicesToPhys, ih]
  · intro l
    induction l with
    | nil => rfl
    | cons x xs ih =>
      rw [indicesToPhys, List.filter_cons]
      split_ifs with hI hP hU <;>
        simp_all [IndexObj.cols]

/-- Claim C10 witness: a FULLTEXT descriptor inserted among recognized
descriptors produces nothing, and the recognized descriptors keep their
declared order and columns. -/
theorem ppdb_C10_witness :
    indicesToPhys "" { oracle_tablespace := none, oracle_iot := false }
        ([{ name := "PK_T", type := "PRIMARY", columns := ["a", "b"] }] ++
          { name := "FT_T", type := "FULLTEXT", columns := ["c"] } ::
            [{ name := "IDX_T", type := "INDEX", columns := ["d"] }]) =
      indicesToPhys "" { oracle_tablespace := none, oracle_iot := false }
        ([{ name := "PK_T", type := "PRIMARY", columns := ["a", "b"] }] ++
          [{ name := "IDX_T", type := "INDEX", columns := ["d"] }]) ∧
    (indicesToPhys "" { oracle_tablespace := none, oracle_iot := false }
        [{ name := "PK_T", type := "PRIMARY", columns := ["a", "b"] },
         { name := "IDX_T", type := "INDEX", columns := ["d"] }]).map IndexObj.cols =
      ([{ name := "PK_T", type := "PRIMARY", columns := ["a", "b"] },
        { name := "IDX_T", type := "INDEX", columns := ["d"] }].filter
          (fun i : LogicalIndex =>
            i.type == "INDEX" || i.type == "PRIMARY" || i.type == "UNIQUE")).map
        (fun i => i.columns) := by
  have h := ppdb_C10_unknown_index_kind_skipped ""
    { oracle_tablespace := none, oracle_iot := false }
    [{ name := "PK_T", type := "PRIMARY", columns := ["a", "b"] }]
    [{ name := "IDX_T", type := "INDEX", columns := ["d"] }]
    { name := "FT_T", type := "FULLTEXT", columns := ["c"] }
    (by decide) (by decide) (by decide)
  exact ⟨h.1, h.2 _⟩

theorem columnsToPhys_ok_spec (tm : List (String × PhysType)) (pkey : List String)
    (cols : List LogicalColumn) (pcols : List PhysColumn)
    (h : columnsToPhys tm pkey cols = .ok pcols) :
    pcols.length = cols.length ∧
    ∀ k (hk : k < cols.length) (hk' : k < pcols.length),
      (pcols.get ⟨k, hk'⟩).name = (cols.get ⟨k, hk⟩).name ∧
      (pcols.get ⟨k, hk'⟩).autoincrement =
        (if pkey.contains (cols.get ⟨k, hk⟩).name then some false else none) := by
  induction cols generalizing pcols with
  | nil =>
    simp only [columnsToPhys] at h
    cases h
    exact ⟨rfl, fun k hk _ => absurd hk (Nat.not_lt_zero k)⟩
  | cons c rest ih =>
    rw [columnsToPhys] at h
    cases hl : tm.lookup c.type with
    | none => rw [hl] at h; exact absurd h (by simp)
    | some t =>
      rw [hl] at h
      cases hr : columnsToPhys tm pkey rest with
      | error e => rw [hr] at h; exact absurd h (by simp [Except.map])
      | ok rest' =>
        rw [hr] at h
        simp only [Except.map, Except.ok.injEq] at h
        subst h
        obtain ⟨hlen, hspec⟩ := ih rest' hr
        refine ⟨by simp [hlen], ?_⟩
        intro k hk hk'
        cases k with
        | zero => exact ⟨rfl, rfl⟩
        | succ k =>
          exact hspec k (Nat.lt_of_succ_lt_succ hk) (Nat.lt_of_succ_lt_succ hk')

theorem mem_pkeyColumns_iff (ts : TableSchema)
    (hone : (ts.indices.filter (fun i => i.type == "PRIMARY")).length ≤ 1) (s : String) :
    s ∈ pkeyColumns ts ↔ ∃ idx ∈ ts.indices, idx.type = "PRIMARY" ∧ s ∈ idx.columns := by
  unfold pkeyColumns
  cases hf : ts.indices.find? (fun i => i.type == "PRIMARY") with
  | none =>
    simp only [List.not_mem_nil, false_iff]
    rintro ⟨idx, hidx, htyp, -⟩
    have := List.find?_eq_none.mp hf idx hidx
    simp [htyp] at this
  | some i0 =>
    have h0 : i0 ∈ ts.indices := List.mem_of_find?_eq_some hf
    have ht0 : i0.type = "PRIMARY" := by
      have := List.find?_some hf
      simpa using this
    constructor
    · intro hs
      exact ⟨i0, h0, ht0, hs⟩
    · rintro ⟨idx, hidx, htyp, hs⟩
      have hi0f : i0 ∈ ts.indices.filter (fun i => i.type == "PRIMARY") :=
        List.mem_filter.mpr ⟨h0, by simp [ht0]⟩
      have hidxf : idx ∈ ts.indices.filter (fun i => i.type == "PRIMARY") :=
        List.mem_filter.mpr ⟨hidx, by simp [htyp]⟩
      have heq : idx = i0 := by
        rcases hl : ts.indices.filter (fun i => i.type == "PRIMARY") with - | ⟨a, - | ⟨b, l⟩⟩
        · rw [hl] at hi0f
          exact absurd hi0f (List.not_mem_nil i0)
        · rw [hl] at hi0f hidxf
          simp only [List.mem_singleton] at hi0f hidxf
          rw [hi0f, hidxf]
        · rw [hl] at hone
          simp at hone
      exact heq ▸ hs

/-- Claim C3: for every LogicalTable (with at most one PRIMARY index,
as the data model requires), the column builder disables auto-increment
exactly on the columns whose names appear in a PRIMARY-kind index of
the table: every such column's physical column has auto-increment
explicitly off, and no other column has its auto-increment setting
touched. -/
theorem ppdb_C3_pkey_autoincrement (st : SchemaState) (name : String) (ts : TableSchema)
    (pcols : List PhysColumn)
    (hts : st.tableSchemas name = some ts)
    (hone : (ts.indices.filter (fun i => i.type == "PRIMARY")).length ≤ 1)
    (hc : tableColumns st name = .ok pcols) :
    pcols.length = ts.columns.length ∧
    ∀ k (hk : k < ts.columns.length) (hk' : k < pcols.length),
      (pcols.get ⟨k, hk'⟩).name = (ts.columns.get ⟨k, hk⟩).name ∧
      ((pcols.get ⟨k, hk'⟩).autoincrement = some false ↔
        ∃ idx ∈ ts.indices, idx.type = "PRIMARY" ∧ (ts.columns.get ⟨k, hk⟩).name ∈ idx.columns) ∧
      ((pcols.get ⟨k, hk'⟩).autoincrement ≠ some false →
        (pcols.get ⟨k, hk'⟩).autoincrement = none) := by
  rw [tableColumns, hts] at hc
  obtain ⟨hlen, hspec⟩ := columnsToPhys_ok_spec st.type_map (pkeyColumns ts) ts.columns pcols hc
  refine ⟨hlen, ?_⟩
  intro k hk hk'
  obtain ⟨hname, hauto⟩ := hspec k hk hk'
  have hmem_iff : ((pkeyColumns ts).contains (ts.columns.get ⟨k, hk⟩).name = true) ↔
      ∃ idx ∈ ts.indices, idx.type = "PRIMARY" ∧ (ts.columns.get ⟨k, hk⟩).name ∈ idx.columns := by
    rw [show (pkeyColumns ts).contains (ts.columns.get ⟨k, hk⟩).name =
          List.elem (ts.columns.get ⟨k, hk⟩).name (pkeyColumns ts) from rfl,
      List.elem_iff]
    exact mem_pkeyColumns_iff ts hone _
  refine ⟨hname, ?_, ?_⟩
  · rw [hauto]
    by_cases hmem : (pkeyColumns ts).contains (ts.columns.get ⟨k, hk⟩).name = true
    · rw [if_pos hmem]
      exact iff_of_true rfl (hmem_iff.mp hmem)
    · rw [if_neg hmem]
      exact iff_of_false (fun h => Option.noConfusion h)
        (fun hex => hmem (hmem_iff.mpr hex))
  · rw [hauto]
    intro hne
    by_cases hmem : (pkeyColumns ts).contains (ts.columns.get ⟨k, hk⟩).name = true
    · exact absurd (if_pos hmem) hne
    · exact if_neg hmem

/-- Claim C3 witness: the example `DiaObject` table has both primary-key
columns with auto-increment off and the pixel column untouched. -/
theorem ppdb_C3_witness :
    objColsEx.length = tsDiaObject.columns.length ∧
    ((objColsEx.get ⟨0, by decide⟩).autoincrement = some false ↔
      ∃ idx ∈ tsDiaObject.indices, idx.type = "PRIMARY" ∧
        (tsDiaObject.columns.get ⟨0, by decide⟩).name ∈ idx.columns) ∧
    ((objColsEx.get ⟨2, by decide⟩).autoincrement = some false ↔
      ∃ idx ∈ tsDiaObject.indices, idx.type = "PRIMARY" ∧
        (tsDiaObject.columns.get ⟨2, by decide⟩).name ∈ idx.columns) := by
  have h := ppdb_C3_pkey_autoincrement (exampleState .baseline false "pp_") "DiaObject"
    tsDiaObject objColsEx (by rfl) (by decide) (by rfl)
  exact ⟨h.1, (h.2 0 (by decide) (by decide)).2.1, (h.2 2 (by decide) (by decide)).2.1⟩

/-- Claim C5: `makeSchema` discards the held table mapping, rebuilds it
in full via `_makeTables` with the dialect options passed to the call;
if drop is requested it issues a best-effort DROP for all tables (a
missing table is not an error) and then issues CREATE for every table
of the rebuilt mapping; in particular, calling it with drop=true when
no tables exist yet completes without an execution error. -/
theorem ppdb_C5_makeSchema_drop_best_effort (st : SchemaState) (me : String)
    (ot : Option String) (iot : Bool) (t : SchemaTables)
    (ht : makeTables st me ot iot = .ok t) :
    (∀ held held' db d, makeSchema st held db d me ot iot = makeSchema st held' db d me ot iot) ∧
    (∀ held db, ∃ db1 db2, drop_all db t.metadata true = .ok db1 ∧
      create_all db1 t.metadata true = .ok db2 ∧
      makeSchema st held db true me ot iot = .ok (t, db2)) ∧
    (∀ held, makeSchema st held ⟨[]⟩ true me ot iot =
      .ok (t, ⟨t.metadata.map (fun tb => tb.name)⟩)) := by
  refine ⟨fun _ _ _ _ => rfl, ?_, ?_⟩
  · intro held db
    refine ⟨_, _, rfl, rfl, ?_⟩
    simp [makeSchema, ht, drop_all, create_all, Except.bind, bind, pure, Except.pure]
  · intro held
    have hfil : ∀ l : List PhysTable,
        (l.filter (fun tb => !((([] : List String)).contains tb.name))) = l := by
      intro l
      exact List.filter_eq_self.mpr (fun a _ => by simp)
    simp [makeSchema, ht, drop_all, create_all, Except.bind, bind, pure, Except.pure, hfil]

/-- Claim C5 witness: on the example state with an empty database and a
stale held mapping, `makeSchema(drop=true)` succeeds (no execution
error) and creates all tables of the rebuilt mapping. -/
theorem ppdb_C5_witness :
    ∃ t : SchemaTables,
      makeTables (exampleState .baseline false "") "InnoDB" none false = .ok t ∧
      makeSchema (exampleState .baseline false "") heldEx ⟨[]⟩ true "InnoDB" none false =
        .ok (t, ⟨t.metadata.map (fun tb => tb.name)⟩) := by
  cases hmk : makeTables (exampleState .baseline false "") "InnoDB" none false with
  | error e =>
    have hok : (makeTables (exampleState .baseline false "") "InnoDB" none
        false).toOption.isSome = true := by decide
    rw [hmk] at hok
    exact absurd hok (by simp [Except.toOption])
  | ok t =>
    exact ⟨t, rfl, (ppdb_C5_makeSchema_drop_best_effort (exampleState .baseline false "")
      "InnoDB" none false t hmk).2.2 heldEx⟩

/-- Claim C1: for the "objects" role table: with indexingMode baseline
it is built from the baseline logical definition (columns and indices
of DiaObject); with pix_id_iov its constraints come from the pixel-keyed
logical definition DiaObjectIndexHtmFirst; with last_object_table an
additional objectsLast role table is present, absent for the other two
modes. -/
theorem ppdb_C1_objects_indexing_modes (st : SchemaState) (me : String) (ot : Option String)
    (iot : Bool)
    (tsObj tsHtm tsLast tsSrc tsSS tsFS tsMatch : TableSchema)
    (objCols lastCols srcCols ssCols fsCols matchCols : List PhysColumn)
    (hObj : st.tableSchemas "DiaObject" = some tsObj)
    (hHtm : st.tableSchemas "DiaObjectIndexHtmFirst" = some tsHtm)
    (hLast : st.tableSchemas "DiaObjectLast" = some tsLast)
    (hSrc : st.tableSchemas "DiaSource" = some tsSrc)
    (hSS : st.tableSchemas "SSObject" = some tsSS)
    (hFS : st.tableSchemas "DiaForcedSource" = some tsFS)
    (hMatch : st.tableSchemas "DiaObject_To_Object_Match" = some tsMatch)
    (hcObj : tableColumns st "DiaObject" = .ok objCols)
    (hcLast : tableColumns st "DiaObjectLast" = .ok lastCols)
    (hcSrc : tableColumns st "DiaSource" = .ok srcCols)
    (hcSS : tableColumns st "SSObject" = .ok ssCols)
    (hcFS : tableColumns st "DiaForcedSource" = .ok fsCols)
    (hcMatch : tableColumns st "DiaObject_To_Object_Match" = .ok matchCols) :
    ∃ r, makeTables st me ot iot = .ok r ∧
      r.objects.columns = objCols ∧
      (st.dia_object_index = .pix_id_iov →
        r.objects.constraints =
          indicesToPhys st.pfx { oracle_tablespace := ot, oracle_iot := false }
            tsHtm.indices) ∧
      (st.dia_object_index ≠ .pix_id_iov →
        r.objects.constraints =
          indicesToPhys st.pfx { oracle_tablespace := ot, oracle_iot := false }
            tsObj.indices) ∧
      (r.objects_last.isSome ↔ st.dia_object_index = .last_object_table) := by
  refine ⟨_, makeTables_eq st me ot iot tsObj tsHtm tsLast tsSrc tsSS tsFS tsMatch
    objCols lastCols srcCols ssCols fsCols matchCols hObj hHtm hLast hSrc hSS hFS hMatch
    hcObj hcLast hcSrc hcSS hcFS hcMatch, ?_, ?_, ?_, ?_⟩ <;>
    cases hmode : st.dia_object_index <;>
      simp [makeTablesSpec, hmode]

/-- Claim C1 witness: in pix_id_iov mode the example objects table
takes its constraints from the DiaObjectIndexHtmFirst definition, its
columns from DiaObject, and no objectsLast table is produced. -/
theorem ppdb_C1_witness :
    ∃ r, makeTables (exampleState .pix_id_iov false "pp_") "InnoDB" none false = .ok r ∧
      r.objects.columns = objColsEx ∧
      r.objects.constraints =
        indicesToPhys "pp_" { oracle_tablespace := none, oracle_iot := false }
          tsDiaObjectIndexHtmFirst.indices ∧
      r.objects_last = none := by
  obtain ⟨r, hr, hcols, hpix, hnpix, hlast⟩ := ppdb_C1_objects_indexing_modes
    (exampleState .pix_id_iov false "pp_") "InnoDB" none false
    tsDiaObject tsDiaObjectIndexHtmFirst tsDiaObjectLast tsDiaSource tsSSObject
    tsDiaForcedSource tsMatch objColsEx lastColsEx srcColsEx ssColsEx fsColsEx matchColsEx
    rfl rfl rfl rfl rfl rfl rfl rfl rfl rfl rfl rfl rfl
  refine ⟨r, hr, hcols, hpix rfl, ?_⟩
  cases ho : r.objects_last with
  | none => rfl
  | some x => exact absurd (hlast.mp (by rw [ho]; rfl)) (by decide)

/-- Claim C7: with nightlyStaging true the table assembler produces an
objectsNightly role table with the same columns as the baseline objects
definition and no indices or constraints; with nightlyStaging false the
role is absent entirely. -/
theorem ppdb_C7_nightly_staging (st : SchemaState) (me : String) (ot : Option String)
    (iot : Bool)
    (tsObj tsHtm tsLast tsSrc tsSS tsFS tsMatch : TableSchema)
    (objCols lastCols srcCols ssCols fsCols matchCols : List PhysColumn)
    (hObj : st.tableSchemas "DiaObject" = some tsObj)
    (hHtm : st.tableSchemas "DiaObjectIndexHtmFirst" = some tsHtm)
    (hLast : st.tableSchemas "DiaObjectLast" = some tsLast)
    (hSrc : st.tableSchemas "DiaSource" = some tsSrc)
    (hSS : st.tableSchemas "SSObject" = some tsSS)
    (hFS : st.tableSchemas "DiaForcedSource" = some tsFS)
    (hMatch : st.tableSchemas "DiaObject_To_Object_Match" = some tsMatch)
    (hcObj : tableColumns st "DiaObject" = .ok objCols)
    (hcLast : tableColumns st "DiaObjectLast" = .ok lastCols)
    (hcSrc : tableColumns st "DiaSource" = .ok srcCols)
    (hcSS : tableColumns st "SSObject" = .ok ssCols)
    (hcFS : tableColumns st "DiaForcedSource" = .ok fsCols)
    (hcMatch : tableColumns st "DiaObject_To_Object_Match" = .ok matchCols) :
    ∃ r, makeTables st me ot iot = .ok r ∧
      (st.dia_object_nightly = false → r.objects_nightly = none) ∧
      (st.dia_object_nightly = true →
        r.objects_nightly = some
          { name := st.pfx ++ "DiaObjectNightly", columns := objCols, constraints := [],
            mysql_engine := me,
            info := { oracle_tablespace := ot, oracle_iot := false } } ∧
        r.objects.columns = objCols) := by
  refine ⟨_, makeTables_eq st me ot iot tsObj tsHtm tsLast tsSrc tsSS tsFS tsMatch
    objCols lastCols srcCols ssCols fsCols matchCols hObj hHtm hLast hSrc hSS hFS hMatch
    hcObj hcLast hcSrc hcSS hcFS hcMatch, ?_, ?_⟩ <;>
    cases hnight : st.dia_object_nightly <;>
      simp [makeTablesSpec, hnight]

/-- Claim C7 witness: the example state with nightly staging enabled
produces an objectsNightly table with the DiaObject columns and no
constraints. -/
theorem ppdb_C7_witness :
    ∃ r, makeTables (exampleState .baseline true "pp_") "InnoDB" none false = .ok r ∧
      r.objects_nightly = some
        { name := "pp_" ++ "DiaObjectNightly", columns := objColsEx, constraints := [],
          mysql_engine := "InnoDB",
          info := { oracle_tablespace := none, oracle_iot := false } } ∧
      r.objects.columns = objColsEx := by
  obtain ⟨r, hr, -, hsome⟩ := ppdb_C7_nightly_staging
    (exampleState .baseline true "pp_") "InnoDB" none false
    tsDiaObject tsDiaObjectIndexHtmFirst tsDiaObjectLast tsDiaSource tsSSObject
    tsDiaForcedSource tsMatch objColsEx lastColsEx srcColsEx ssColsEx fsColsEx matchColsEx
    rfl rfl rfl rfl rfl rfl rfl rfl rfl rfl rfl rfl rfl
  obtain ⟨hn, hcols⟩ := hsome rfl
  exact ⟨r, hr, hn, hcols⟩

/-- Claim C9: the table assembler registers SSObject and
DiaObject_To_Object_Match tables with the metadata but never exposes
them as role attributes: the sources and forcedSources roles are the
DiaSource and DiaForcedSource tables, and every exposed role attribute
is one of objects, objects_nightly, objects_last, sources,
forcedSources, visits. -/
theorem ppdb_C9_role_attributes (st : SchemaState) (me : String) (ot : Option String)
    (iot : Bool)
    (tsObj tsHtm tsLast tsSrc tsSS tsFS tsMatch : TableSchema)
    (objCols lastCols srcCols ssCols fsCols matchCols : List PhysColumn)
    (hObj : st.tableSchemas "DiaObject" = some tsObj)
    (hHtm : st.tableSchemas "DiaObjectIndexHtmFirst" = some tsHtm)
    (hLast : st.tableSchemas "DiaObjectLast" = some tsLast)
    (hSrc : st.tableSchemas "DiaSource" = some tsSrc)
    (hSS : st.tableSchemas "SSObject" = some tsSS)
    (hFS : st.tableSchemas "DiaForcedSource" = some tsFS)
    (hMatch : st.tableSchemas "DiaObject_To_Object_Match" = some tsMatch)
    (hcObj : tableColumns st "DiaObject" = .ok objCols)
    (hcLast : tableColumns st "DiaObjectLast" = .ok lastCols)
    (hcSrc : tableColumns st "DiaSource" = .ok srcCols)
    (hcSS : tableColumns st "SSObject" = .ok ssCols)
    (hcFS : tableColumns st "DiaForcedSource" = .ok fsCols)
    (hcMatch : tableColumns st "DiaObject_To_Object_Match" = .ok matchCols) :
    ∃ r, makeTables st me ot iot = .ok r ∧
      (st.pfx ++ "SSObject") ∈ r.metadata.map (fun tb => tb.name) ∧
      (st.pfx ++ "DiaObject_To_Object_Match") ∈ r.metadata.map (fun tb => tb.name) ∧
      r.sources.name = st.pfx ++ "DiaSource" ∧
      r.forcedSources.name = st.pfx ++ "DiaForcedSource" ∧
      ∀ n ∈ roleNames r, ∃ b ∈ (["DiaObject", "DiaObjectNightly", "DiaObjectLast",
        "DiaSource", "DiaForcedSource", "PpdbProtoVisits"] : List String),
        n = st.pfx ++ b := by
  refine ⟨_, makeTables_eq st me ot iot tsObj tsHtm tsLast tsSrc tsSS tsFS tsMatch
    objCols lastCols srcCols ssCols fsCols matchCols hObj hHtm hLast hSrc hSS hFS hMatch
    hcObj hcLast hcSrc hcSS hcFS hcMatch, ?_, ?_, ?_, ?_, ?_⟩ <;>
    cases hmode : st.dia_object_index <;> cases hnight : st.dia_object_nightly <;>
      simp only [makeTablesSpec, roleNames, hmode, hnight] <;>
      simp

/-- Claim C9 witness: on the example state (last_object_table mode with
nightly staging) the metadata holds the SSObject and match tables while
the role attributes are exactly the six prefixed role names. -/
theorem ppdb_C9_witness :
    ∃ r, makeTables (exampleState .last_object_table true "pp_") "InnoDB" none false =
        .ok r ∧
      ("pp_" ++ "SSObject") ∈ r.metadata.map (fun tb => tb.name) ∧
      ("pp_" ++ "DiaObject_To_Object_Match") ∈ r.metadata.map (fun tb => tb.name) ∧
      r.sources.name = "pp_" ++ "DiaSource" ∧
      r.forcedSources.name = "pp_" ++ "DiaForcedSource" ∧
      ∀ n ∈ roleNames r, ∃ b ∈ (["DiaObject", "DiaObjectNightly", "DiaObjectLast",
        "DiaSource", "DiaForcedSource", "PpdbProtoVisits"] : List String),
        n = "pp_" ++ b :=
  ppdb_C9_role_attributes (exampleState .last_object_table true "pp_") "InnoDB" none false
    tsDiaObject tsDiaObjectIndexHtmFirst tsDiaObjectLast tsDiaSource tsSSObject
    tsDiaForcedSource tsMatch objColsEx lastColsEx srcColsEx ssColsEx fsColsEx matchColsEx
    rfl rfl rfl rfl rfl rfl rfl rfl rfl rfl rfl rfl rfl

theorem constraintNames_indicesToPhys (pfx : String) (info : Info) (l : List LogicalIndex) :
    constraintNames (indicesToPhys pfx info l) =
      (indexNamesOf l).map (fun s => pfx ++ s) := by
  induction l with
  | nil => rfl
  | cons x xs ih =>
    simp only [indicesToPhys, indexNamesOf]
    split_ifs <;> simp [constraintNames, IndexObj.genName, ih]

/-- Claim C6: every generated physical identifier (table name, index
name, constraint name) carries the configured name prefix: each
generated name is the prefix prepended to the name generated under the
empty prefix, so with a non-empty prefix every name begins with it and
with the empty prefix every name is the original unprefixed one. -/
theorem ppdb_C6_name_prefixing (st : SchemaState) (me : String) (ot : Option String)
    (iot : Bool)
    (tsObj tsHtm tsLast tsSrc tsSS tsFS tsMatch : TableSchema)
    (objCols lastCols srcCols ssCols fsCols matchCols : List PhysColumn)
    (hObj : st.tableSchemas "DiaObject" = some tsObj)
    (hHtm : st.tableSchemas "DiaObjectIndexHtmFirst" = some tsHtm)
    (hLast : st.tableSchemas "DiaObjectLast" = some tsLast)
    (hSrc : st.tableSchemas "DiaSource" = some tsSrc)
    (hSS : st.tableSchemas "SSObject" = some tsSS)
    (hFS : st.tableSchemas "DiaForcedSource" = some tsFS)
    (hMatch : st.tableSchemas "DiaObject_To_Object_Match" = some tsMatch)
    (hcObj : tableColumns st "DiaObject" = .ok objCols)
    (hcLast : tableColumns st "DiaObjectLast" = .ok lastCols)
    (hcSrc : tableColumns st "DiaSource" = .ok srcCols)
    (hcSS : tableColumns st "SSObject" = .ok ssCols)
    (hcFS : tableColumns st "DiaForcedSource" = .ok fsCols)
    (hcMatch : tableColumns st "DiaObject_To_Object_Match" = .ok matchCols) :
    ∃ r r0, makeTables st me ot iot = .ok r ∧
      makeTables { st with pfx := "" } me ot iot = .ok r0 ∧
      allNames r = (allNames r0).map (fun s => st.pfx ++ s) := by
  obtain ⟨mode, nightly, pfx, tm, cat⟩ := st
  have e1 := makeTables_eq ⟨mode, nightly, pfx, tm, cat⟩ me ot iot
    tsObj tsHtm tsLast tsSrc tsSS tsFS tsMatch
    objCols lastCols srcCols ssCols fsCols matchCols hObj hHtm hLast hSrc hSS hFS hMatch
    hcObj hcLast hcSrc hcSS hcFS hcMatch
  have e0 := makeTables_eq ⟨mode, nightly, "", tm, cat⟩ me ot iot
    tsObj tsHtm tsLast tsSrc tsSS tsFS tsMatch
    objCols lastCols srcCols ssCols fsCols matchCols hObj hHtm hLast hSrc hSS hFS hMatch
    hcObj hcLast hcSrc hcSS hcFS hcMatch
  refine ⟨_, _, e1, e0, ?_⟩
  cases mode <;> cases nightly <;>
    simp [makeTablesSpec, allNames, constraintNames, IndexObj.genName,
      constraintNames_indicesToPhys]

/-- Claim C6 witness: on the example state with prefix "pp_" each
generated identifier is "pp_" prepended to the identifier generated
with the empty prefix. -/
theorem ppdb_C6_witness :
    ∃ r r0,
      makeTables (exampleState .last_object_table true "pp_") "InnoDB" none false = .ok r ∧
      makeTables { exampleState .last_object_table true "pp_" with pfx := "" }
          "InnoDB" none false = .ok r0 ∧
      allNames r = (allNames r0).map (fun s => "pp_" ++ s) :=
  ppdb_C6_name_prefixing (exampleState .last_object_table true "pp_") "InnoDB" none false
    tsDiaObject tsDiaObjectIndexHtmFirst tsDiaObjectLast tsDiaSource tsSSObject
    tsDiaForcedSource tsMatch objColsEx lastColsEx srcColsEx ssColsEx fsColsEx matchColsEx
    rfl rfl rfl rfl rfl rfl rfl rfl rfl rfl rfl rfl rfl

end Ppdb
